import Mathlib

/-!
# bggGraphQLServer: the collection pipeline and the levelled logger

A shallow embedding of

* `interface/boardgamegeek/schema.go`    (wire schema, `ReqeustError`),
* `interface/boardgamegeek/config.go`    (`CollectionUrl`),
* `interface/boardgamegeek/implement.go` (`FetchCollection`, `requestXMLAPI`,
  `generateCollection`, `generateGame`),
* `interface/logger/logger.go`           (`SetLevel`, `createOutputIO`, `setup`).

Go functions with several results are embedded as functions into tuples, in the
order of the Go result list.  A Go pointer result that may be `nil` is an
`Option`.  Calls into the Go standard library (`strconv`, `encoding/xml`,
`net/http`, `net/url`, `io`) are parameters of the embedding; what the remote
service answers is a script indexed by the number of the request.  The two
uses of `fmt` (the `%d` verb, and a format without operands) are embedded as
functions.  The unbounded retry loop takes a bound on its iterations and
yields `none` when the bound is reached.
-/

set_option autoImplicit false

namespace boardgamegeek

/-! ## schema.go -/

/-- Wire type `Bayesaverage` (the `XMLName` tag fields of the schema are never
read by the pipeline and are left out of every wire type). -/
structure Bayesaverage where
  Value : String
  deriving DecidableEq, Repr, Inhabited

/-- Wire type `Rateing`. -/
structure Rateing where
  Score : Bayesaverage
  deriving DecidableEq, Repr, Inhabited

/-- Wire type `Stats`: the three counters arrive as text. -/
structure Stats where
  MinPlayers : String
  MaxPlayers : String
  PlayingTime : String
  Rate : Rateing
  deriving DecidableEq, Repr, Inhabited

/-- Wire type `Item`. -/
structure Item where
  ID : String
  Name : String
  YearPublished : Int
  Stats : Stats
  deriving DecidableEq, Repr, Inhabited

/-- Wire type `Items` (the success schema). -/
structure Items where
  TotalNum : String
  Game : List Item
  deriving DecidableEq, Repr, Inhabited

/-- Wire type `Error`. -/
structure Error where
  Message : String
  deriving DecidableEq, Repr, Inhabited

/-- Wire type `Errors` (the error schema). -/
structure Errors where
  Error : Error
  deriving DecidableEq, Repr, Inhabited

/-- The struct `ReqeustError` of schema.go. -/
structure ReqeustError where
  URL : String
  Code : Int
  Msg : String
  deriving DecidableEq, Repr, Inhabited

/-- Decimal rendering of an integer, the `%d` verb of `fmt`. -/
def SprintfD (n : Int) : String := toString n

/-- Method `Error` of `ReqeustError`: `fmt.Sprintf("request %s code %d", e.URL, e.Code)`. -/
def ReqeustError.Error (e : ReqeustError) : String :=
  "request " ++ e.URL ++ " code " ++ SprintfD e.Code

/-- Values of the Go interface type `error` that occur in the package, by
dynamic type. -/
inductive GoError where
  /-- a value of type `ReqeustError` -/
  | reqeust (e : ReqeustError)
  /-- the value returned by `fmt.Errorf`; its `Error()` is `text` -/
  | errorString (text : String)
  /-- a `*strconv.NumError` with its fields `Func`, `Num`, `Err` -/
  | numError (Func Num Err : String)
  /-- any other library error (xml decoding, network, body read), by its text -/
  | other (text : String)
  deriving DecidableEq, Repr, Inhabited

/-! ## graph/model -/

/-- Modelled from the spec: the type `model.User` of package `graph/model`,
which is not among the sources; the field is the one implement.go sets. -/
structure User where
  Name : String
  deriving DecidableEq, Repr, Inhabited

/-- Modelled from the spec: the type `model.Game` of package `graph/model`,
which is not among the sources (the GameRecord of the spec); the fields are
the ones implement.go sets.  `F` is the type of `float64` values. -/
structure Game (F : Type) where
  ID : String
  Name : String
  Maxplayers : Int
  Minplayers : Int
  Playingtime : Int
  Score : F
  Yearpublished : String
  deriving DecidableEq, Repr, Inhabited

/-- Modelled from the spec: the type `model.Collection` of package
`graph/model`, which is not among the sources (the GameCollection of the spec). -/
structure Collection (F : Type) where
  User : User
  Game : List (Game F)
  deriving DecidableEq, Repr, Inhabited

/-! ## strconv -/

/-- The two `strconv` functions the transformation calls, each returning the
Go result pair (value, error). -/
structure Strconv (F : Type) where
  Atoi : String → Int × Option GoError
  ParseFloat : String → Nat → F × Option GoError

/-! ## implement.go: transformation -/

section transform
variable {F : Type} [Zero F]

/-- Function `generateGame` of implement.go; results `(game, err)`.  The
pointer `game` is never nil, so it is embedded as a value. -/
def generateGame (sc : Strconv F) (item : Item) : Game F × Option GoError :=
  let game : Game F :=
    { ID := item.ID, Name := item.Name, Maxplayers := 0, Minplayers := 0,
      Playingtime := 0, Score := 0, Yearpublished := "" }
  let r := sc.Atoi item.Stats.MaxPlayers
  let game := { game with Maxplayers := r.1 }
  match r.2 with
  | some e => (game, some e)
  | none =>
    let r := sc.Atoi item.Stats.MinPlayers
    let game := { game with Minplayers := r.1 }
    match r.2 with
    | some e => (game, some e)
    | none =>
      let r := sc.Atoi item.Stats.PlayingTime
      let game := { game with Playingtime := r.1 }
      match r.2 with
      | some e => (game, some e)
      | none =>
        let r := sc.ParseFloat item.Stats.Rate.Score.Value 64
        let game := { game with Score := r.1 }
        match r.2 with
        | some e => (game, some e)
        | none => ({ game with Yearpublished := SprintfD item.YearPublished }, none)

/-- The `for _, item := range items.Game` loop of `generateCollection`: the
remaining items and the collection built so far; results `(collection, err)`. -/
def generateCollectionLoop (sc : Strconv F) :
    List Item → Collection F → Collection F × Option GoError
  | [], collection => (collection, none)
  | item :: rest, collection =>
    match generateGame sc item with
    | (_, some e) => (collection, some e)
    | (game, none) =>
      generateCollectionLoop sc rest { collection with Game := collection.Game ++ [game] }

/-- Function `generateCollection` of implement.go; results `(collection, err)`.
The named result `collection` is assigned the freshly allocated collection
before the loop, and every `return` of the function is a bare `return`. -/
def generateCollection (sc : Strconv F) (items : Items) (name : String) :
    Option (Collection F) × Option GoError :=
  let collection : Collection F := { User := { Name := name }, Game := [] }
  let r := generateCollectionLoop sc items.Game collection
  (some r.1, r.2)

end transform

/-! ## Reference instances of the library parameters -/

/-- Value of a decimal digit. -/
def digitVal (c : Char) : Option Nat :=
  if '0' ≤ c ∧ c ≤ '9' then some (c.toNat - 48) else none

/-- Reads a run of decimal digits onto an accumulator. -/
def parseDigits : List Char → Nat → Option Nat
  | [], acc => some acc
  | c :: cs, acc =>
    match digitVal c with
    | none => none
    | some d => parseDigits cs (acc * 10 + d)

/-- `strconv.Atoi` on a 64-bit platform: an optional sign and at least one
decimal digit; 0 with a syntax error otherwise, the clamped value with a range
error outside the `int` range. -/
def Atoi (s : String) : Int × Option GoError :=
  match s.data with
  | [] => (0, some (.numError "Atoi" s "invalid syntax"))
  | c :: cs =>
    let digits := if c = '-' ∨ c = '+' then cs else c :: cs
    match digits with
    | [] => (0, some (.numError "Atoi" s "invalid syntax"))
    | _ =>
      match parseDigits digits 0 with
      | none => (0, some (.numError "Atoi" s "invalid syntax"))
      | some n =>
        if c = '-' then
          if n ≤ 2 ^ 63 then (-(n : Int), none)
          else (-(2 ^ 63 : Int), some (.numError "Atoi" s "value out of range"))
        else
          if n < 2 ^ 63 then ((n : Int), none)
          else ((2 ^ 63 - 1 : Int), some (.numError "Atoi" s "value out of range"))

/-- An exact decimal `Mantissa / 10 ^ Scale`.  It stands for the `float64`
that a decimal literal denotes in the examples, where no arithmetic is done
on scores. -/
structure Decimal where
  Mantissa : Int
  Scale : Nat
  deriving DecidableEq, Repr, Inhabited

instance : Zero Decimal := ⟨⟨0, 0⟩⟩

/-- Reads `digits` or `digits.digits` with an optional sign as a `Decimal`;
every other text is a syntax error.  An instance of the `ParseFloat` parameter
for examples (exponents, infinities and NaN are not read). -/
def parseDecimal (s : String) (_bitSize : Nat) : Decimal × Option GoError :=
  match s.data with
  | [] => (0, some (.numError "ParseFloat" s "invalid syntax"))
  | c :: cs =>
    let body := if c = '-' ∨ c = '+' then cs else c :: cs
    let whole := body.takeWhile (fun d => d ≠ '.')
    let frac := (body.dropWhile (fun d => d ≠ '.')).drop 1
    match whole, parseDigits (whole ++ frac) 0 with
    | _ :: _, some n =>
      (⟨if c = '-' then -(n : Int) else (n : Int), frac.length⟩, none)
    | _, _ => (0, some (.numError "ParseFloat" s "invalid syntax"))

/-- The reference parsers. -/
def strconv : Strconv Decimal := { Atoi := Atoi, ParseFloat := parseDecimal }

/-- The item of the specification example. -/
def gloomhaven : Item :=
  { ID := "174430", Name := "Gloomhaven", YearPublished := 2017,
    Stats := { MinPlayers := "1", MaxPlayers := "4", PlayingTime := "120",
               Rate := { Score := { Value := "8.3" } } } }

/-! ## fmt with an empty operand list -/

/-- The flag characters of a `fmt` directive. -/
def isFlag (c : Char) : Bool :=
  c = '#' || c = '0' || c = '+' || c = '-' || c = ' '

/-- Function `parsenum` of package `fmt` on the text from `start`: whether a
number was read, and the text left.  A number above 1e6 gives up and moves to
the end of the region. -/
def parsenum : List Char → Nat → Bool → Bool × List Char
  | [], _, isnum => (isnum, [])
  | c :: cs, num, isnum =>
    match digitVal c with
    | none => (isnum, c :: cs)
    | some d => if num > 1000000 then (false, []) else parsenum cs (num * 10 + d) true

/-- Method `argNumber` of package `fmt` when there is no operand: the text
left, whether a well-formed index `[n]` was read (`found`), and whether an
opening bracket was met (every index is then out of range). -/
def argNumber (s : List Char) : List Char × Bool × Bool :=
  match s with
  | '[' :: rest =>
    if rest.length < 2 then (rest, false, true)
    else if rest.contains ']' then
      let inner := rest.takeWhile (fun c => c ≠ ']')
      let after := (rest.dropWhile (fun c => c ≠ ']')).drop 1
      (after, decide (inner ≠ [] ∧ parsenum inner 0 false = (true, [])), true)
    else (rest, false, true)
  | _ => (s, false, false)

/-- One directive of `doPrintf` when there is no operand, on the text after
the percent sign: what is written, and the text left (`none` when the format
ended without a verb, which ends the formatting). -/
def directive (s : List Char) : List Char × Option (List Char) :=
  let s := s.dropWhile isFlag
  let a1 := argNumber s
  let w : List Char × List Char × Bool :=
    match a1.1 with
    | '*' :: rest => ("%!(BADWIDTH)".data, rest, false)
    | t => ([], (parsenum t 0 false).2, a1.2.1)
  let p : List Char × List Char × Bool × Bool :=
    match w.2.1 with
    | '.' :: rest =>
      let a2 := argNumber rest
      match a2.1 with
      | '*' :: rest2 => ("%!(BADPREC)".data, rest2, false, a2.2.2)
      | t => ([], (parsenum t 0 false).2, a2.2.1, a2.2.2)
    | t => ([], t, w.2.2, false)
  let a3 := if p.2.2.1 then (p.2.1, true, false) else argNumber p.2.1
  let badIndex := a1.2.2 || p.2.2.2 || a3.2.2
  let out := w.1 ++ p.1
  match a3.1 with
  | [] => (out ++ "%!(NOVERB)".data, none)
  | verb :: rest =>
    if verb = '%' then (out ++ ['%'], some rest)
    else if badIndex then (out ++ "%!".data ++ [verb] ++ "(BADINDEX)".data, some rest)
    else (out ++ "%!".data ++ [verb] ++ "(MISSING)".data, some rest)

/-- The loop of `doPrintf` when there is no operand; `fuel` bounds the number
of directives (each one consumes its percent sign). -/
def doPrintf : Nat → List Char → List Char
  | 0, _ => []
  | fuel + 1, s =>
    let lit := s.takeWhile (fun c => c ≠ '%')
    match s.dropWhile (fun c => c ≠ '%') with
    | [] => lit
    | _ :: rest =>
      match directive rest with
      | (out, none) => lit ++ out
      | (out, some rest2) => lit ++ out ++ doPrintf fuel rest2

/-- `fmt.Sprintf(format)` with an empty operand list. -/
def Sprintf (format : String) : String :=
  String.mk (doPrintf (format.length + 1) format.data)

/-- `fmt.Errorf(format)` with an empty operand list: an error whose text is
the formatted string. -/
def Errorf (format : String) : GoError := .errorString (Sprintf format)

/-! ## config.go and net/http -/

/-- Constant `CollectionUrl` of config.go. -/
def CollectionUrl : String := "https://boardgamegeek.com/xmlapi2/collection"

/-- `http.StatusOK`. -/
def StatusOK : Int := 200
/-- `http.StatusAccepted`. -/
def StatusAccepted : Int := 202
/-- `http.StatusBadGateway`. -/
def StatusBadGateway : Int := 502
/-- `http.MethodGet`. -/
def MethodGet : String := "GET"

/-- A `[]byte`. -/
abbrev Bytes := List UInt8

/-- A `url.URL`: the text before the query, and the field `RawQuery`. -/
structure URL where
  Endpoint : String
  RawQuery : String
  deriving DecidableEq, Repr, Inhabited

/-- Method `String` of `url.URL`. -/
def URL.toString (u : URL) : String :=
  if u.RawQuery = "" then u.Endpoint else u.Endpoint ++ "?" ++ u.RawQuery

/-- A `url.Values`: the keys with their values, in order of first insertion. -/
abbrev Values := List (String × List String)

/-- Method `Add` of `url.Values`: appends the value to the values of the key. -/
def Values.Add (v : Values) (key value : String) : Values :=
  if v.any (fun kv => kv.1 = key) then
    v.map (fun kv => if kv.1 = key then (kv.1, kv.2 ++ [value]) else kv)
  else v ++ [(key, [value])]

/-- A `*http.Request`, of which only the URL is used. -/
structure Request where
  URL : URL
  deriving DecidableEq, Repr, Inhabited

/-- A `*http.Response`: status code, status text, and what `io.ReadAll` of its
body returns (the bytes read, and the text of the read error if any). -/
structure Response where
  StatusCode : Int
  Status : String
  Body : Bytes × Option String
  deriving DecidableEq, Repr, Inhabited

/-- The network side of one call.  An error of `net/http` or `io` is given by
its `Error()` text, the only thing `requestXMLAPI` reads from it.
`NewRequestWithContext` returns a nil request together with an error, and
`client.Do` returns either a response or an error; `Do n` is the answer to the
request number `n` (counted from 0) that the process sends. -/
structure Net (Ctx : Type) where
  NewRequestWithContext : Ctx → String → String → Except String Request
  Query : URL → Values
  Encode : Values → String
  Do : Nat → Request → Except String Response

/-- The two uses of `xml.Unmarshal`, each on a zero-valued variable; results
(decoded value, error). -/
structure Xml where
  UnmarshalItems : Bytes → Items × Option GoError
  UnmarshalErrors : Bytes → Errors × Option GoError

/-- The state of the network side: what `requestXMLAPI` changes outside of
its results. -/
structure NetState where
  /-- number of requests sent by `client.Do` so far -/
  requests : Nat
  /-- response bodies obtained and not closed, by request number -/
  openBodies : List Nat
  deriving DecidableEq, Repr, Inhabited

/-- What `FetchCollection` itself does besides computing its results. -/
structure Trace where
  /-- number of calls of `requestXMLAPI` -/
  fetches : Nat
  /-- number of completed `time.Sleep(1 * time.Second)` -/
  sleeps : Nat
  /-- the errors whose text was given to `logger.Error.Println`, oldest first -/
  errorLog : List GoError
  deriving DecidableEq, Repr, Inhabited

/-- How a Go call ends: it returns its results, or a run-time panic unwinds it. -/
inductive Exec (α : Type) where
  | returned (a : α)
  | panicked (reason : String)
  deriving DecidableEq, Repr

/-! ## implement.go: the fetcher and the pipeline -/

section pipeline
variable {Ctx : Type}

/-- Lines 67 to 73 of implement.go: the request with the five query
parameters added and encoded into `RawQuery`. -/
def withQuery (net : Net Ctx) (req : Request) (name : String) : Request :=
  let q := net.Query req.URL
  let q := q.Add "username" name
  let q := q.Add "subtype" "boardgame"
  let q := q.Add "stats" "1"
  let q := q.Add "wanttoplay" "1"
  let q := q.Add "excludesubtype" "boardgameexpansion"
  { req with URL := { req.URL with RawQuery := net.Encode q } }

/-- Function `requestXMLAPI` of implement.go; results `(data, err)` and the
network state after the call.  When the request constructor fails `req` is
nil, and the error branch evaluates `req.URL.String()`. -/
def requestXMLAPI (net : Net Ctx) (ctx : Ctx) (name : String) (s : NetState) :
    Exec ((Bytes × Option GoError) × NetState) :=
  match net.NewRequestWithContext ctx MethodGet CollectionUrl with
  | .error _ => .panicked "invalid memory address or nil pointer dereference"
  | .ok req =>
    let req := withQuery net req name
    let n := s.requests
    let s := { s with requests := n + 1 }
    match net.Do n req with
    | .error e =>
      .returned (([], some (.reqeust
        { URL := req.URL.toString, Code := StatusBadGateway, Msg := e })), s)
    | .ok resp =>
      let s := { s with openBodies := n :: s.openBodies }
      if resp.StatusCode = StatusAccepted then
        .returned (([], some (.reqeust
          { URL := req.URL.toString, Code := resp.StatusCode, Msg := resp.Status })), s)
      else if resp.StatusCode ≠ StatusOK then
        .returned (([], some (.reqeust
          { URL := req.URL.toString, Code := resp.StatusCode, Msg := resp.Status })), s)
      else
        -- defer resp.Body.Close()
        let r := resp.Body
        let err : Option GoError :=
          match r.2 with
          | some e => some (.reqeust
              { URL := req.URL.toString, Code := resp.StatusCode, Msg := e })
          | none => none
        -- the deferred Close runs at the return
        .returned ((r.1, err), { s with openBodies := s.openBodies.erase n })

/-- The `for` loop of `FetchCollection`: `none` when `fuel` iterations did not
leave the loop, else the values of `(data, err)` when the loop is left. -/
def fetchLoop (net : Net Ctx) (ctx : Ctx) (name : String) :
    Nat → NetState → Trace → Option (Exec ((Bytes × Option GoError) × NetState × Trace))
  | 0, _, _ => none
  | fuel + 1, s, t =>
    let t := { t with fetches := t.fetches + 1 }
    match requestXMLAPI net ctx name s with
    | .panicked reason => some (.panicked reason)
    | .returned ((data, err), s) =>
      match err with
      | some (.reqeust reqErr) =>
        if reqErr.Code = StatusAccepted then
          fetchLoop net ctx name fuel s { t with sleeps := t.sleeps + 1 }
        else some (.returned ((data, err), s, t))
      | some _ => some (.returned ((data, err), s, t))
      | none => some (.returned ((data, err), s, t))

variable {F : Type} [Zero F]

/-- Function `FetchCollection` of implement.go; results `(collection, err)`,
the network state and the trace after the call; `none` when `fuel` iterations
did not leave the retry loop. -/
def FetchCollection (net : Net Ctx) (xml : Xml) (sc : Strconv F) (fuel : Nat)
    (ctx : Ctx) (name : String) (s : NetState) (t : Trace) :
    Option (Exec ((Option (Collection F) × Option GoError) × NetState × Trace)) :=
  match fetchLoop net ctx name fuel s t with
  | none => none
  | some (.panicked reason) => some (.panicked reason)
  | some (.returned ((_, some e), s, t)) => some (.returned ((none, some e), s, t))
  | some (.returned ((data, none), s, t)) =>
    let r := xml.UnmarshalItems data
    match r.2 with
    | some e1 =>
      let t := { t with errorLog := t.errorLog ++ [e1] }
      let r2 := xml.UnmarshalErrors data
      match r2.2 with
      | some e2 =>
        let t := { t with errorLog := t.errorLog ++ [e2] }
        some (.returned ((none, some e2), s, t))
      | none => some (.returned ((none, some (Errorf r2.1.Error.Message)), s, t))
    | none => some (.returned (generateCollection sc r.1 name, s, t))

/-- From state `s`, `k` consecutive calls of the fetcher each end with a
`ReqeustError` of code 202, and leave the network in state `s2`. -/
def Pending (net : Net Ctx) (ctx : Ctx) (name : String) : Nat → NetState → NetState → Prop
  | 0, s, s2 => s = s2
  | k + 1, s, s2 =>
    ∃ data e s1, requestXMLAPI net ctx name s = .returned ((data, some (.reqeust e)), s1) ∧
      e.Code = StatusAccepted ∧ Pending net ctx name k s1 s2

/-- Every numeric text of the item is accepted by the parsers. -/
def Parses (sc : Strconv F) (item : Item) : Prop :=
  (sc.Atoi item.Stats.MinPlayers).2 = none ∧ (sc.Atoi item.Stats.MaxPlayers).2 = none ∧
  (sc.Atoi item.Stats.PlayingTime).2 = none ∧
  (sc.ParseFloat item.Stats.Rate.Score.Value 64).2 = none

instance (sc : Strconv F) (item : Item) : Decidable (Parses sc item) := by
  unfold Parses; infer_instance

/-- The record that corresponds to an item: identifier and name copied, the
three counters and the score as the parsers read them, the year in decimal. -/
def record (sc : Strconv F) (item : Item) : Game F :=
  { ID := item.ID, Name := item.Name,
    Maxplayers := (sc.Atoi item.Stats.MaxPlayers).1,
    Minplayers := (sc.Atoi item.Stats.MinPlayers).1,
    Playingtime := (sc.Atoi item.Stats.PlayingTime).1,
    Score := (sc.ParseFloat item.Stats.Rate.Score.Value 64).1,
    Yearpublished := SprintfD item.YearPublished }

end pipeline

/-! ## Reference network, for examples -/

/-- Joins `key=value` pairs with `&`, without escaping. -/
def joinPairs : List (String × String) → String
  | [] => ""
  | [kv] => kv.1 ++ "=" ++ kv.2
  | kv :: rest => kv.1 ++ "=" ++ kv.2 ++ "&" ++ joinPairs rest

/-- Strict order of texts, character by character. -/
def ltChars : List Char → List Char → Bool
  | [], [] => false
  | [], _ :: _ => true
  | _ :: _, [] => false
  | a :: as, b :: bs =>
    if a.toNat < b.toNat then true
    else if b.toNat < a.toNat then false
    else ltChars as bs

/-- Inserts a key with its values into a list sorted by key. -/
def insertKey (kv : String × List String) : Values → Values
  | [] => [kv]
  | x :: xs => if ltChars kv.1.data x.1.data then kv :: x :: xs else x :: insertKey kv xs

/-- Method `Encode` of `url.Values` for keys and values made of letters and
digits, which are not escaped: the pairs sorted by key. -/
def encodePlain (v : Values) : String :=
  joinPairs ((v.foldr insertKey []).flatMap (fun kv => kv.2.map (fun x => (kv.1, x))))

/-- A network for examples over contexts that may be nil (`none`): the
constructor fails on the nil context only, and the remote service answers the
requests by the given script, and 404 once the script is over. -/
def scripted (script : List (Except String Response)) : Net (Option Unit) where
  NewRequestWithContext := fun ctx _ url =>
    match ctx with
    | none => .error "net/http: nil Context"
    | some _ => .ok { URL := { Endpoint := url, RawQuery := "" } }
  Query := fun _ => []
  Encode := encodePlain
  Do := fun n _ => script.getD n (.ok { StatusCode := 404, Status := "404 Not Found", Body := ([], none) })

/-- A response with status 202. -/
def accepted : Except String Response :=
  .ok { StatusCode := 202, Status := "202 Accepted", Body := ([], none) }

/-- A response with status 200 and the given body. -/
def okBody (data : Bytes) : Except String Response :=
  .ok { StatusCode := 200, Status := "200 OK", Body := (data, none) }

/-- A decoder for examples: the body `[1]` is the success document with the
given items, the body `[2]` is the error document with the given message, and
every other body fails both schemas. -/
def tableXml (items : Items) (message : String) : Xml where
  UnmarshalItems := fun data =>
    if data = [1] then (items, none)
    else (default, some (.other "expected element type <items> but have <errors>"))
  UnmarshalErrors := fun data =>
    if data = [2] then (⟨⟨message⟩⟩, none)
    else (default, some (.other "EOF"))

/-- An item whose minplayers text is not a number. -/
def malformed : Item :=
  { ID := "13", Name := "Catan", YearPublished := 1995,
    Stats := { MinPlayers := "three", MaxPlayers := "4", PlayingTime := "90",
               Rate := { Score := { Value := "6.9" } } } }

end boardgamegeek

namespace logger

/-! ## logger.go -/

/-- Constant `LevelError`. -/
def LevelError : Int := 0
/-- Constant `LevelWarn`. -/
def LevelWarn : Int := 1
/-- Constant `LevelInfo`. -/
def LevelInfo : Int := 2
/-- Constant `LevelTrace`. -/
def LevelTrace : Int := 3

/-- An `io.Writer` of the package: `io.Discard`, `os.Stdout`, or a
`transformer` with its fields `w`, `Level`, `hasFF`, `showNum` (the mutex is
left out). -/
inductive Writer where
  | Discard
  | Stdout
  | transformer (w : Writer) (Level : String) (hasFF showNum : Bool)
  deriving DecidableEq, Repr, Inhabited

/-- Whether what is written to the writer reaches standard output: method
`Write` of `transformer` hands its line to the field `w`, and `io.Discard`
drops what it is given. -/
def Writer.toStdout : Writer → Bool
  | .Discard => false
  | .Stdout => true
  | .transformer w _ _ _ => w.toStdout

/-- The package variables: `threshold`, and for each of the four loggers the
writer its `log.Logger` was created on. -/
structure State where
  threshold : Int
  Error : Writer
  Warn : Writer
  Info : Writer
  Trace : Writer
  deriving DecidableEq, Repr, Inhabited

/-- Function `setup` of logger.go. -/
def setup (s : State) (err warn info trace : Writer) : State :=
  { s with Error := err, Warn := warn, Info := info, Trace := trace }

/-- The `for i := range output` loop of `createOutputIO`, on the indices still
to visit; the `else` branch is the `break`. -/
def createOutputLoop (threshold : Int) (showNum : Bool) (names : List String) :
    List Nat → List Writer → List Writer
  | [], output => output
  | i :: rest, output =>
    if (i : Int) ≤ threshold then
      createOutputLoop threshold showNum names rest
        (output.set i (.transformer .Stdout (names.getD i "") true showNum))
    else output

/-- Function `createOutputIO` of logger.go. -/
def createOutputIO (threshold : Int) (showNum : Bool) : List Writer :=
  let names := ["ERROR", "WARN", "INFO", "TRACE"]
  let output := [Writer.Discard, Writer.Discard, Writer.Discard, Writer.Discard]
  createOutputLoop threshold showNum names (List.range output.length) output

/-- Function `SetLevel` of logger.go; results: the returned integer and the
package variables after the call. -/
def SetLevel (s : State) (level : Int) : Int × State :=
  if level < 0 then (s.threshold, s)
  else
    let level := if level > LevelTrace then LevelTrace else level
    let old := s.threshold
    let showNum := decide (level > LevelWarn)
    let s := { s with threshold := level }
    let output := createOutputIO s.threshold showNum
    (old, setup s (output.getD 0 .Discard) (output.getD 1 .Discard)
            (output.getD 2 .Discard) (output.getD 3 .Discard))

end logger


/-! # Theorems -/

namespace boardgamegeek

section transformProofs
variable {F : Type} [Zero F]

theorem generateGame_parsed (sc : Strconv F) (item : Item) (h : Parses sc item) :
    generateGame sc item = (record sc item, none) := by
  obtain ⟨h1, h2, h3, h4⟩ := h
  simp only [generateGame, record, h1, h2, h3, h4]

theorem generateCollectionLoop_parsed (sc : Strconv F) :
    ∀ (items : List Item) (c : Collection F), (∀ item ∈ items, Parses sc item) →
      generateCollectionLoop sc items c
        = ({ c with Game := c.Game ++ items.map (record sc) }, none) := by
  intro items
  induction items with
  | nil => intro c _; simp [generateCollectionLoop]
  | cons item rest ih =>
    intro c h
    have hitem : Parses sc item := h item (List.mem_cons_self _ _)
    have hrest : ∀ x ∈ rest, Parses sc x := fun x hx => h x (List.mem_cons_of_mem _ hx)
    simp only [generateCollectionLoop, generateGame_parsed sc item hitem]
    rw [ih _ hrest]
    simp

theorem generateCollection_parsed (sc : Strconv F) (items : Items) (name : String)
    (h : ∀ item ∈ items.Game, Parses sc item) :
    generateCollection sc items name
      = (some { User := { Name := name }, Game := items.Game.map (record sc) }, none) := by
  simp [generateCollection, generateCollectionLoop_parsed sc items.Game _ h]

/-- C1: when every item's minplayers, maxplayers, playingtime and bayesaverage
texts parse, `generateCollection` returns no error and a collection owned by
the given name with exactly one record per item, in order: identifier and
name copied, the counters and the score as parsed, the year in decimal text.
With no item the record sequence is empty. -/
theorem generateCollection_builds_every_record (sc : Strconv F) (name : String)
    (items : Items) (h : ∀ item ∈ items.Game, Parses sc item) :
    ∃ collection : Collection F,
      generateCollection sc items name = (some collection, none) ∧
      collection.User.Name = name ∧
      collection.Game.length = items.Game.length ∧
      collection.Game = items.Game.map (fun item =>
        { ID := item.ID, Name := item.Name,
          Maxplayers := (sc.Atoi item.Stats.MaxPlayers).1,
          Minplayers := (sc.Atoi item.Stats.MinPlayers).1,
          Playingtime := (sc.Atoi item.Stats.PlayingTime).1,
          Score := (sc.ParseFloat item.Stats.Rate.Score.Value 64).1,
          Yearpublished := SprintfD item.YearPublished }) := by
  refine ⟨_, generateCollection_parsed sc items name h, rfl, by simp, rfl⟩

end transformProofs

theorem generateCollection_builds_every_record_witness :
    (∀ item ∈ [gloomhaven], Parses strconv item) ∧
    ∃ collection : Collection Decimal,
      generateCollection strconv ⟨"1", [gloomhaven]⟩ "alice" = (some collection, none) ∧
      collection.User.Name = "alice" ∧
      collection.Game.length = 1 ∧
      collection.Game = [⟨"174430", "Gloomhaven", 4, 1, 120, ⟨83, 1⟩, "2017"⟩] :=
  ⟨by decide,
   generateCollection_builds_every_record strconv "alice" ⟨"1", [gloomhaven]⟩ (by decide)⟩

/-- C2 (the code at a failing input): with a well-formed item followed by one
whose minplayers text is not a number, `generateCollection` returns the parse
error together with a non-nil collection that holds the record of the first
item, and `FetchCollection` hands both to its caller; the collection that
`generateCollection` returns is nil for no input. -/
theorem generateCollection_malformed_returns_collection :
    generateCollection strconv ⟨"2", [gloomhaven, malformed]⟩ "alice"
      = (some ⟨⟨"alice"⟩, [⟨"174430", "Gloomhaven", 4, 1, 120, ⟨83, 1⟩, "2017"⟩]⟩,
         some (.numError "Atoi" "three" "invalid syntax")) ∧
    FetchCollection (scripted [okBody [1]]) (tableXml ⟨"2", [gloomhaven, malformed]⟩ "")
        strconv 1 (some ()) "alice" ⟨0, []⟩ ⟨0, 0, []⟩
      = some (.returned
          ((some ⟨⟨"alice"⟩, [⟨"174430", "Gloomhaven", 4, 1, 120, ⟨83, 1⟩, "2017"⟩]⟩,
            some (.numError "Atoi" "three" "invalid syntax")),
           ⟨1, []⟩, ⟨1, 0, []⟩)) ∧
    (∀ (items : Items) (name : String),
      (generateCollection strconv items name).1 ≠ none) := by
  refine ⟨by decide, by decide, ?_⟩
  intro items name h
  simp [generateCollection] at h

/-- C3 (the code at a failing input): for an error document whose message is
`100%`, the error that `FetchCollection` returns has the text `100%!(NOVERB)`,
because the message is passed to `fmt.Errorf` as the format. -/
theorem FetchCollection_message_used_as_format :
    FetchCollection (scripted [okBody [2]]) (tableXml default "100%")
        strconv 1 (some ()) "alice" ⟨0, []⟩ ⟨0, 0, []⟩
      = some (.returned
          ((none, some (.errorString "100%!(NOVERB)")), ⟨1, []⟩,
           ⟨1, 0, [.other "expected element type <items> but have <errors>"]⟩)) ∧
    Sprintf "100%" ≠ "100%" := by
  constructor <;> decide

section pipelineProofs
variable {Ctx : Type} {F : Type} [Zero F]

theorem fetchLoop_pending (net : Net Ctx) (ctx : Ctx) (name : String) :
    ∀ (k : Nat) (s s2 : NetState) (t : Trace) (fuel : Nat), Pending net ctx name k s s2 →
      fetchLoop net ctx name (k + fuel) s t
        = fetchLoop net ctx name fuel s2
            { t with fetches := t.fetches + k, sleeps := t.sleeps + k } := by
  intro k
  induction k with
  | zero =>
    intro s s2 t fuel h
    simp only [Pending] at h
    subst h
    simp
  | succ k ih =>
    intro s s2 t fuel h
    obtain ⟨data, e, s1, hreq, hcode, hrest⟩ := h
    have hfuel : k + 1 + fuel = (k + fuel) + 1 := by omega
    rw [hfuel]
    simp only [fetchLoop, hreq, hcode, if_true]
    rw [ih s1 s2 _ fuel hrest]
    congr 1
    simp only [Trace.mk.injEq, and_true]
    omega

theorem fetchLoop_leaves_on_data (net : Net Ctx) (ctx : Ctx) (name : String)
    (s s2 : NetState) (t : Trace) (data : Bytes) (fuel : Nat)
    (h : requestXMLAPI net ctx name s = .returned ((data, none), s2)) :
    fetchLoop net ctx name (fuel + 1) s t
      = some (.returned ((data, none), s2, { t with fetches := t.fetches + 1 })) := by
  simp only [fetchLoop, h]

theorem fetchLoop_leaves_on_error (net : Net Ctx) (ctx : Ctx) (name : String)
    (s s2 : NetState) (t : Trace) (data : Bytes) (e : GoError) (fuel : Nat)
    (h : requestXMLAPI net ctx name s = .returned ((data, some e), s2))
    (hnot : ∀ r : ReqeustError, e = .reqeust r → r.Code ≠ StatusAccepted) :
    fetchLoop net ctx name (fuel + 1) s t
      = some (.returned ((data, some e), s2, { t with fetches := t.fetches + 1 })) := by
  cases e with
  | reqeust r =>
    have hr : r.Code ≠ StatusAccepted := hnot r rfl
    simp only [fetchLoop, h, hr, if_false]
  | errorString text => simp only [fetchLoop, h]
  | numError f n m => simp only [fetchLoop, h]
  | other text => simp only [fetchLoop, h]

/-- C4: when `k` consecutive fetches end with a status-202 `ReqeustError` and
the next one returns the body of a 200 response that decodes under the success
schema into items that all parse, `FetchCollection` (given more than `k` loop
iterations) returns the collection built from those items and no error, after
exactly `k + 1` calls of the fetcher and exactly `k` sleeps. -/
theorem FetchCollection_retries_while_accepted (net : Net Ctx) (xml : Xml) (sc : Strconv F)
    (ctx : Ctx) (name : String) (k : Nat) (s s2 s3 : NetState) (t : Trace)
    (data : Bytes) (items : Items)
    (hpending : Pending net ctx name k s s2)
    (hok : requestXMLAPI net ctx name s2 = .returned ((data, none), s3))
    (hxml : xml.UnmarshalItems data = (items, none))
    (hitems : ∀ item ∈ items.Game, Parses sc item)
    (fuel : Nat) (hfuel : k < fuel) :
    FetchCollection net xml sc fuel ctx name s t
      = some (.returned
          ((some { User := { Name := name }, Game := items.Game.map (record sc) }, none),
           s3, { t with fetches := t.fetches + (k + 1), sleeps := t.sleeps + k })) := by
  obtain ⟨m, rfl⟩ : ∃ m, fuel = k + (m + 1) := ⟨fuel - k - 1, by omega⟩
  simp only [FetchCollection, fetchLoop_pending net ctx name k s s2 t (m + 1) hpending,
    fetchLoop_leaves_on_data net ctx name s2 s3 _ data m hok, hxml,
    generateCollection_parsed sc items name hitems]
  rfl

/-- C5: when, after `k` fetches that ended with a status-202 `ReqeustError`,
a fetch returns an error that is not a `ReqeustError` of code 202 (a
`ReqeustError` of another code, or an error of another type),
`FetchCollection` returns a nil collection and that same error value, with
the network as that fetch left it, after `k + 1` calls of the fetcher and `k`
sleeps: no fetch and no sleep follow the failing attempt. -/
theorem FetchCollection_stops_at_other_error (net : Net Ctx) (xml : Xml) (sc : Strconv F)
    (ctx : Ctx) (name : String) (k : Nat) (s s2 s3 : NetState) (t : Trace)
    (data : Bytes) (e : GoError)
    (hpending : Pending net ctx name k s s2)
    (herr : requestXMLAPI net ctx name s2 = .returned ((data, some e), s3))
    (hnot : ∀ r : ReqeustError, e = .reqeust r → r.Code ≠ StatusAccepted)
    (fuel : Nat) (hfuel : k < fuel) :
    FetchCollection net xml sc fuel ctx name s t
      = some (.returned
          ((none, some e), s3,
           { t with fetches := t.fetches + (k + 1), sleeps := t.sleeps + k })) := by
  obtain ⟨m, rfl⟩ : ∃ m, fuel = k + (m + 1) := ⟨fuel - k - 1, by omega⟩
  simp only [FetchCollection, fetchLoop_pending net ctx name k s s2 t (m + 1) hpending,
    fetchLoop_leaves_on_error net ctx name s2 s3 _ data e m herr hnot]
  rfl

/-- C9: when the retry loop ends with data on which success-schema decoding
fails with `e1` and error-schema decoding fails with `e2`, `FetchCollection`
returns a nil collection and the error `e2`; `e1` goes to the error log,
followed there by `e2`. -/
theorem FetchCollection_returns_second_decode_error (net : Net Ctx) (xml : Xml)
    (sc : Strconv F) (ctx : Ctx) (name : String) (fuel : Nat) (s s2 : NetState)
    (t t2 : Trace) (data : Bytes) (e1 e2 : GoError)
    (hfetch : fetchLoop net ctx name fuel s t = some (.returned ((data, none), s2, t2)))
    (h1 : (xml.UnmarshalItems data).2 = some e1)
    (h2 : (xml.UnmarshalErrors data).2 = some e2) :
    FetchCollection net xml sc fuel ctx name s t
      = some (.returned
          ((none, some e2), s2, { t2 with errorLog := t2.errorLog ++ [e1, e2] })) := by
  simp only [FetchCollection, hfetch, h1, h2, List.append_assoc, List.singleton_append]

end pipelineProofs

theorem FetchCollection_retries_while_accepted_witness :
    Pending (scripted [accepted, accepted, okBody [1]]) (some ()) "alice" 2 ⟨0, []⟩ ⟨2, [1, 0]⟩ ∧
    FetchCollection (scripted [accepted, accepted, okBody [1]]) (tableXml ⟨"1", [gloomhaven]⟩ "")
        strconv 3 (some ()) "alice" ⟨0, []⟩ ⟨0, 0, []⟩
      = some (.returned
          ((some ⟨⟨"alice"⟩, [⟨"174430", "Gloomhaven", 4, 1, 120, ⟨83, 1⟩, "2017"⟩]⟩, none),
           ⟨3, [1, 0]⟩, ⟨3, 2, []⟩)) :=
  have hp : Pending (scripted [accepted, accepted, okBody [1]]) (some ()) "alice" 2
      ⟨0, []⟩ ⟨2, [1, 0]⟩ :=
    ⟨_, _, _, rfl, rfl, _, _, _, rfl, rfl, rfl⟩
  ⟨hp, FetchCollection_retries_while_accepted (scripted [accepted, accepted, okBody [1]])
    (tableXml ⟨"1", [gloomhaven]⟩ "") strconv (some ()) "alice" 2 ⟨0, []⟩ ⟨2, [1, 0]⟩
    ⟨3, [1, 0]⟩ ⟨0, 0, []⟩ [1] ⟨"1", [gloomhaven]⟩ hp (by decide) (by decide) (by decide)
    3 (by decide)⟩

theorem FetchCollection_stops_at_other_error_witness :
    Pending (scripted [accepted, .ok ⟨503, "503 Service Unavailable", ([], none)⟩, okBody [1]])
      (some ()) "alice" 1 ⟨0, []⟩ ⟨1, [0]⟩ ∧
    FetchCollection (scripted [accepted, .ok ⟨503, "503 Service Unavailable", ([], none)⟩, okBody [1]])
        (tableXml ⟨"1", [gloomhaven]⟩ "") strconv 5 (some ()) "alice" ⟨0, []⟩ ⟨0, 0, []⟩
      = some (.returned
          ((none, some (.reqeust
              ⟨"https://boardgamegeek.com/xmlapi2/collection?excludesubtype=boardgameexpansion&stats=1&subtype=boardgame&username=alice&wanttoplay=1",
               503, "503 Service Unavailable"⟩)),
           ⟨2, [1, 0]⟩, ⟨2, 1, []⟩)) :=
  have hp : Pending (scripted [accepted, .ok ⟨503, "503 Service Unavailable", ([], none)⟩, okBody [1]])
      (some ()) "alice" 1 ⟨0, []⟩ ⟨1, [0]⟩ :=
    ⟨_, _, _, rfl, rfl, rfl⟩
  ⟨hp, FetchCollection_stops_at_other_error
    (scripted [accepted, .ok ⟨503, "503 Service Unavailable", ([], none)⟩, okBody [1]])
    (tableXml ⟨"1", [gloomhaven]⟩ "") strconv (some ()) "alice" 1 ⟨0, []⟩ ⟨1, [0]⟩
    ⟨2, [1, 0]⟩ ⟨0, 0, []⟩ [] _ hp (by decide) (by intro r hr; cases hr; decide)
    5 (by decide)⟩

theorem FetchCollection_returns_second_decode_error_witness :
    FetchCollection (scripted [okBody [3]]) (tableXml default "") strconv 1
        (some ()) "alice" ⟨0, []⟩ ⟨0, 0, []⟩
      = some (.returned
          ((none, some (.other "EOF")), ⟨1, []⟩,
           ⟨1, 0, [.other "expected element type <items> but have <errors>", .other "EOF"]⟩)) :=
  FetchCollection_returns_second_decode_error (scripted [okBody [3]]) (tableXml default "")
    strconv (some ()) "alice" 1 ⟨0, []⟩ ⟨1, []⟩ ⟨0, 0, []⟩ ⟨1, 0, []⟩ [3]
    (.other "expected element type <items> but have <errors>") (.other "EOF")
    (by decide) (by decide) (by decide)

/-- C6 (the code at a failing input): on a nil context the request constructor
returns no request and the error `net/http: nil Context`; `requestXMLAPI` then
does not return, it panics on `req.URL` of the nil request, and so does
`FetchCollection`. -/
theorem requestXMLAPI_panics_on_nil_request :
    (scripted []).NewRequestWithContext none MethodGet CollectionUrl
      = .error "net/http: nil Context" ∧
    requestXMLAPI (scripted []) none "alice" ⟨0, []⟩
      = .panicked "invalid memory address or nil pointer dereference" ∧
    FetchCollection (scripted []) (tableXml default "") strconv 1 none "alice"
        ⟨0, []⟩ ⟨0, 0, []⟩
      = some (.panicked "invalid memory address or nil pointer dereference") := by
  refine ⟨rfl, rfl, rfl⟩

section fetcherProofs
variable {Ctx : Type}

theorem withQuery_of_collection (net : Net Ctx) (req : Request) (name : String)
    (hurl : req.URL = ⟨CollectionUrl, ""⟩) (hquery : net.Query req.URL = []) :
    (withQuery net req name).URL
      = ⟨CollectionUrl, net.Encode
          [("username", [name]), ("subtype", ["boardgame"]), ("stats", ["1"]),
           ("wanttoplay", ["1"]), ("excludesubtype", ["boardgameexpansion"])]⟩ := by
  simp only [withQuery, hquery]
  rw [hurl]
  rfl

/-- C7: when the request is built for the collection endpoint, the result of
`requestXMLAPI` is decided by the answer to the request: a failure `e` of
`client.Do` gives a `ReqeustError` of code 502 and message `e`; status 202
gives code 202 and the status text; any other status than 200 gives that
status and the status text; status 200 gives the bytes read and no error, or,
when the read fails with `e`, a `ReqeustError` of code 200 and message `e`.
In every error the URL is the collection endpoint with the encoded query of
username, subtype, stats, wanttoplay and excludesubtype. -/
theorem requestXMLAPI_result_by_status (net : Net Ctx) (ctx : Ctx) (name : String)
    (s : NetState) (req : Request)
    (hreq : net.NewRequestWithContext ctx MethodGet CollectionUrl = .ok req)
    (hurl : req.URL = ⟨CollectionUrl, ""⟩) (hquery : net.Query req.URL = []) :
    let url : String := URL.toString ⟨CollectionUrl, net.Encode
      [("username", [name]), ("subtype", ["boardgame"]), ("stats", ["1"]),
       ("wanttoplay", ["1"]), ("excludesubtype", ["boardgameexpansion"])]⟩
    match net.Do s.requests (withQuery net req name) with
    | .error e =>
      ∃ s2, requestXMLAPI net ctx name s
        = .returned (([], some (.reqeust ⟨url, 502, e⟩)), s2)
    | .ok resp =>
      if resp.StatusCode = 202 then
        ∃ s2, requestXMLAPI net ctx name s
          = .returned (([], some (.reqeust ⟨url, 202, resp.Status⟩)), s2)
      else if resp.StatusCode ≠ 200 then
        ∃ s2, requestXMLAPI net ctx name s
          = .returned (([], some (.reqeust ⟨url, resp.StatusCode, resp.Status⟩)), s2)
      else
        match resp.Body with
        | (b, none) => ∃ s2, requestXMLAPI net ctx name s = .returned ((b, none), s2)
        | (b, some e) =>
          ∃ s2, requestXMLAPI net ctx name s
            = .returned ((b, some (.reqeust ⟨url, 200, e⟩)), s2) := by
  intro url
  have hq := withQuery_of_collection net req name hurl hquery
  cases hdo : net.Do s.requests (withQuery net req name) with
  | error e =>
    refine ⟨{ s with requests := s.requests + 1 }, ?_⟩
    simp only [requestXMLAPI, hreq, hdo, hq, StatusBadGateway]
  | ok resp =>
    obtain ⟨code, status, b, rerr⟩ := resp
    by_cases h202 : code = 202
    · subst h202
      refine ⟨⟨s.requests + 1, s.requests :: s.openBodies⟩, ?_⟩
      simp only [requestXMLAPI, hreq, hdo, hq, StatusAccepted, if_true]
    · by_cases h200 : code = 200
      · subst h200
        cases rerr with
        | none =>
          refine ⟨⟨s.requests + 1, (s.requests :: s.openBodies).erase s.requests⟩, ?_⟩
          simp only [requestXMLAPI, hreq, hdo, hq, StatusAccepted, StatusOK]
          rfl
        | some e =>
          refine ⟨⟨s.requests + 1, (s.requests :: s.openBodies).erase s.requests⟩, ?_⟩
          simp only [requestXMLAPI, hreq, hdo, hq, StatusAccepted, StatusOK]
          rfl
      · simp only [h202, if_false, ne_eq, h200, not_false_eq_true, if_true]
        refine ⟨⟨s.requests + 1, s.requests :: s.openBodies⟩, ?_⟩
        simp only [requestXMLAPI, hreq, hdo, hq, StatusAccepted, StatusOK, h202, if_false,
          ne_eq, h200, not_false_eq_true, if_true]

end fetcherProofs

theorem requestXMLAPI_result_by_status_witness :
    (scripted [.ok ⟨200, "200 OK", ([60, 105], some "unexpected EOF")⟩]).NewRequestWithContext
        (some ()) MethodGet CollectionUrl = .ok ⟨⟨CollectionUrl, ""⟩⟩ ∧
    ∃ s2, requestXMLAPI (scripted [.ok ⟨200, "200 OK", ([60, 105], some "unexpected EOF")⟩])
        (some ()) "alice" ⟨0, []⟩
      = .returned (([60, 105], some (.reqeust
          ⟨"https://boardgamegeek.com/xmlapi2/collection?excludesubtype=boardgameexpansion&stats=1&subtype=boardgame&username=alice&wanttoplay=1",
           200, "unexpected EOF"⟩)), s2) :=
  ⟨rfl, requestXMLAPI_result_by_status
    (scripted [.ok ⟨200, "200 OK", ([60, 105], some "unexpected EOF")⟩]) (some ()) "alice"
    ⟨0, []⟩ ⟨⟨CollectionUrl, ""⟩⟩ rfl rfl rfl⟩

/-- C8 (the code at a failing input): on a response of status 202, and on one
of status 404, `requestXMLAPI` returns with the body of the response still
open (body 0 is in the set of open bodies, which was empty before the call);
on status 200 the body is closed. -/
theorem requestXMLAPI_leaves_body_open :
    requestXMLAPI (scripted [accepted]) (some ()) "alice" ⟨0, []⟩
      = .returned (([], some (.reqeust
          ⟨"https://boardgamegeek.com/xmlapi2/collection?excludesubtype=boardgameexpansion&stats=1&subtype=boardgame&username=alice&wanttoplay=1",
           202, "202 Accepted"⟩)), ⟨1, [0]⟩) ∧
    requestXMLAPI (scripted [.ok ⟨404, "404 Not Found", ([], none)⟩]) (some ()) "alice" ⟨0, []⟩
      = .returned (([], some (.reqeust
          ⟨"https://boardgamegeek.com/xmlapi2/collection?excludesubtype=boardgameexpansion&stats=1&subtype=boardgame&username=alice&wanttoplay=1",
           404, "404 Not Found"⟩)), ⟨1, [0]⟩) ∧
    requestXMLAPI (scripted [okBody [1]]) (some ()) "alice" ⟨0, []⟩
      = .returned (([1], none), ⟨1, []⟩) := by
  refine ⟨?_, ?_, ?_⟩ <;> decide

end boardgamegeek

namespace logger

theorem SetLevel_of_level (s : State) (level : Int) (h0 : 0 ≤ level) (h3 : level ≤ 3) :
    SetLevel s level
      = (s.threshold,
         { threshold := level,
           Error := .transformer .Stdout "ERROR" true (decide (level > 1)),
           Warn := if 1 ≤ level then .transformer .Stdout "WARN" true (decide (level > 1))
                   else .Discard,
           Info := if 2 ≤ level then .transformer .Stdout "INFO" true (decide (level > 1))
                   else .Discard,
           Trace := if 3 ≤ level then .transformer .Stdout "TRACE" true (decide (level > 1))
                    else .Discard }) := by
  have hcases : level = 0 ∨ level = 1 ∨ level = 2 ∨ level = 3 := by omega
  rcases hcases with rfl | rfl | rfl | rfl <;> rfl

theorem SetLevel_above (s : State) (level : Int) (h : 3 < level) :
    SetLevel s level = SetLevel s 3 := by
  have h1 : ¬ level < 0 := by omega
  simp only [SetLevel, h1, if_false, LevelTrace, h, if_true]
  rfl

/-- C10: `SetLevel` returns the threshold it found; a negative level leaves
the package variables as they were, a level from 0 to `LevelTrace` becomes the
threshold, a level above `LevelTrace` sets the threshold to `LevelTrace` (3).
After a call with a non-negative level, each of the loggers Error (0),
Warn (1), Info (2), Trace (3) writes to standard output when its level is at
most the new threshold, and is created on `io.Discard` otherwise. -/
theorem SetLevel_sets_threshold_and_outputs (s : State) (level : Int) :
    (level < 0 → SetLevel s level = (s.threshold, s)) ∧
    (0 ≤ level → level ≤ LevelTrace →
      (SetLevel s level).1 = s.threshold ∧ (SetLevel s level).2.threshold = level) ∧
    (LevelTrace < level →
      (SetLevel s level).1 = s.threshold ∧ (SetLevel s level).2.threshold = LevelTrace ∧
      LevelTrace = 3) ∧
    (0 ≤ level →
      (if LevelError ≤ (SetLevel s level).2.threshold
        then (SetLevel s level).2.Error.toStdout = true
        else (SetLevel s level).2.Error = .Discard) ∧
      (if LevelWarn ≤ (SetLevel s level).2.threshold
        then (SetLevel s level).2.Warn.toStdout = true
        else (SetLevel s level).2.Warn = .Discard) ∧
      (if LevelInfo ≤ (SetLevel s level).2.threshold
        then (SetLevel s level).2.Info.toStdout = true
        else (SetLevel s level).2.Info = .Discard) ∧
      (if LevelTrace ≤ (SetLevel s level).2.threshold
        then (SetLevel s level).2.Trace.toStdout = true
        else (SetLevel s level).2.Trace = .Discard)) := by
  have key : ∀ l : Int, 0 ≤ l → l ≤ 3 →
      (if LevelError ≤ (SetLevel s l).2.threshold
        then (SetLevel s l).2.Error.toStdout = true
        else (SetLevel s l).2.Error = .Discard) ∧
      (if LevelWarn ≤ (SetLevel s l).2.threshold
        then (SetLevel s l).2.Warn.toStdout = true
        else (SetLevel s l).2.Warn = .Discard) ∧
      (if LevelInfo ≤ (SetLevel s l).2.threshold
        then (SetLevel s l).2.Info.toStdout = true
        else (SetLevel s l).2.Info = .Discard) ∧
      (if LevelTrace ≤ (SetLevel s l).2.threshold
        then (SetLevel s l).2.Trace.toStdout = true
        else (SetLevel s l).2.Trace = .Discard) := by
    intro l h0 h3
    rw [SetLevel_of_level s l h0 h3]
    have hcases : l = 0 ∨ l = 1 ∨ l = 2 ∨ l = 3 := by omega
    rcases hcases with rfl | rfl | rfl | rfl <;>
      simp [LevelError, LevelWarn, LevelInfo, LevelTrace, Writer.toStdout]
  refine ⟨?_, ?_, ?_, ?_⟩
  · intro h
    simp only [SetLevel, h, if_true]
  · intro h0 h3
    rw [SetLevel_of_level s level h0 h3]
    exact ⟨rfl, rfl⟩
  · intro h
    have h3 : 3 < level := h
    rw [SetLevel_above s level h3, SetLevel_of_level s 3 (by decide) (by decide)]
    exact ⟨rfl, rfl, rfl⟩
  · intro h0
    by_cases h3 : level ≤ 3
    · exact key level h0 h3
    · rw [SetLevel_above s level (by omega)]
      exact key 3 (by decide) (by decide)

theorem SetLevel_sets_threshold_and_outputs_witness :
    SetLevel ⟨2, .Discard, .Discard, .Discard, .Discard⟩ (-1)
      = (2, ⟨2, .Discard, .Discard, .Discard, .Discard⟩) ∧
    SetLevel ⟨2, .Discard, .Discard, .Discard, .Discard⟩ 1
      = (2, ⟨1, .transformer .Stdout "ERROR" true false,
                .transformer .Stdout "WARN" true false, .Discard, .Discard⟩) ∧
    (SetLevel ⟨2, .Discard, .Discard, .Discard, .Discard⟩ 9).2.threshold = 3 :=
  ⟨(SetLevel_sets_threshold_and_outputs ⟨2, .Discard, .Discard, .Discard, .Discard⟩ (-1)).1
      (by decide),
   by decide,
   ((SetLevel_sets_threshold_and_outputs ⟨2, .Discard, .Discard, .Discard, .Discard⟩ 9).2.2.1
      (by decide)).2.1⟩

end logger
